import Mathlib

set_option maxRecDepth 8000

/-!
Verification development for the admission-score crawler/loader pipeline
(`scripts/information_search`): a shallow embedding, in Lean, of the string
processing, free-text paragraph parsing, record normalization, cleaning,
deduplication and numeric coercion logic of the Python sources, together
with theorems settling the specification claims about them.

Conventions of the embedding:
* Python strings are Lean `String`s / `List Char`; `len` is the number of
  scalar values, which coincides with Python's code-point count for the
  BMP text handled here.
* Python `str.isdigit` / regex `\d` are embedded as ASCII plus full-width
  digits (the decimal digits that occur in this data).
* Python whitespace (for `strip`, `split`, regex `\s`) is embedded as the
  common Unicode whitespace characters.
* The specific regexes of the crawlers are embedded operationally with
  their exact backtracking semantics for the construct combinations they
  use (all alternations involved are prefix-free, which makes the
  embeddings below exact).
-/

namespace PyStr

/-- Embedding of Python whitespace (`str.strip()` / `str.split()` / `\s`). -/
def pyIsSpace (c : Char) : Bool :=
  c = ' ' || c = '\t' || c = '\n' || c = '\x0b' || c = '\x0c' || c = '\r' ||
  c = '\x1c' || c = '\x1d' || c = '\x1e' || c = '\x1f' || c = '\x85' ||
  c = '\xa0' || c = ' ' || (' ' ≤ c && c ≤ ' ') ||
  c = ' ' || c = ' ' || c = ' ' || c = ' ' || c = '　'

/-- Embedding of Python `str.isdigit` on a character / regex `\d`
(ASCII and full-width decimal digits). -/
def pyIsDigit (c : Char) : Bool :=
  c.isDigit || ('０' ≤ c && c ≤ '９')

/-- Python `str.lstrip()` (no argument) on a character list. -/
def pyLstrip (cs : List Char) : List Char :=
  cs.dropWhile pyIsSpace

/-- Python `str.rstrip()` (no argument) on a character list. -/
def pyRstrip (cs : List Char) : List Char :=
  (cs.reverse.dropWhile pyIsSpace).reverse

/-- Python `str.strip()` (no argument) on a character list. -/
def pyStrip (cs : List Char) : List Char :=
  pyRstrip (pyLstrip cs)

/-- Python `str.strip()` on a `String`. -/
def pyStripStr (s : String) : String :=
  String.mk (pyStrip s.data)

/-- Python `str.rstrip(chars)`: remove trailing characters drawn from `set`. -/
def pyRstripSet (cs : List Char) (set : List Char) : List Char :=
  (cs.reverse.dropWhile (fun c => set.contains c)).reverse

/-- Python substring test `pat in s` on character lists. -/
def hasInfix (cs pat : List Char) : Bool :=
  cs.tails.any (fun t => pat.isPrefixOf t)

/-- Python substring test `pat in s` on `String`s. -/
def containsStr (s pat : String) : Bool :=
  hasInfix s.data pat.data

/-- Python `s.replace(pat, rep)` (left-to-right, non-overlapping), fuelled;
`pat` is expected non-empty (as in all call sites of the sources). -/
def pyReplaceAux (pat rep : List Char) : Nat → List Char → List Char
  | 0, cs => cs
  | _ + 1, [] => []
  | fuel + 1, c :: rest =>
    if pat.isPrefixOf (c :: rest) then
      rep ++ pyReplaceAux pat rep fuel ((c :: rest).drop pat.length)
    else
      c :: pyReplaceAux pat rep fuel rest

/-- Python `s.replace(pat, rep)` on `String`s. -/
def pyReplaceStr (s pat rep : String) : String :=
  String.mk (pyReplaceAux pat.data rep.data s.data.length s.data)

/-- Python `s.split()` (no argument): whitespace-delimited words, fuelled. -/
def pyWordsAux : Nat → List Char → List (List Char)
  | 0, _ => []
  | fuel + 1, cs =>
    let cs' := cs.dropWhile pyIsSpace
    if cs'.isEmpty then []
    else
      let w := cs'.takeWhile (fun c => !pyIsSpace c)
      w :: pyWordsAux fuel (cs'.drop w.length)

/-- Python `s.split()` on a character list. -/
def pyWords (cs : List Char) : List (List Char) :=
  pyWordsAux cs.length cs

/-- Python `" ".join(words)`. -/
def joinSpace (ws : List (List Char)) : List Char :=
  List.intercalate [' '] ws

/-- Python `s.count(c)` for a single character. -/
def countChar (cs : List Char) (c : Char) : Nat :=
  cs.count c

/-- Python `s.rfind(c)` for a single character: index of the last
occurrence, if any. -/
def lastIdxOfAux (c : Char) : List Char → Nat → Option Nat
  | [], _ => none
  | x :: xs, i =>
    match lastIdxOfAux c xs (i + 1) with
    | some j => some j
    | none => if x = c then some i else none

/-- Python `s.rfind(c)` (as `Option` instead of `-1`). -/
def lastIdxOf (cs : List Char) (c : Char) : Option Nat :=
  lastIdxOfAux c cs 0

end PyStr

namespace DataCleaner

open PyStr

/-- `cleaner.py`, `DataCleaner.clean_score`: empty/falsy input gives `''`;
otherwise keep only digit characters, and if none remain return the
original string stripped of surrounding whitespace. -/
def clean_score (s : String) : String :=
  if s = "" then ""
  else
    let cleaned := s.data.filter pyIsDigit
    if cleaned.isEmpty then pyStripStr s else String.mk cleaned

/-- `cleaner.py`, `DataCleaner.clean_ranking`: same computation as
`clean_score`. -/
def clean_ranking (s : String) : String :=
  if s = "" then ""
  else
    let cleaned := s.data.filter pyIsDigit
    if cleaned.isEmpty then pyStripStr s else String.mk cleaned

/-- A Python dictionary value as found in the crawler records: a string,
an integer, or `None`. -/
inductive PyVal where
  | str : String → PyVal
  | int : ℤ → PyVal
  | null : PyVal
deriving DecidableEq

/-- Python truthiness of a `PyVal`. -/
def truthy : PyVal → Bool
  | .str s => !(s = "")
  | .int n => !(n = 0)
  | .null => false

/-- Whether a `PyVal` is a string instance (`isinstance(v, str)`). -/
def isStr : PyVal → Bool
  | .str _ => true
  | _ => false

/-- Python `str.isdigit()` on a whole string: non-empty and all digits. -/
def isPyDigitStr (s : String) : Bool :=
  !(s = "") && s.data.all pyIsDigit

/-- An admission record as visible to `DataCleaner`: the three required
fields (`年份`, `学校`, `生源地`), the two optional score fields (`最低分`,
`最低分排名`; `Option` models dictionary-key presence), and the three tag
fields written by `add_university_tags`. -/
structure RawRecord where
  year : PyVal
  school : PyVal
  province : PyVal
  minScore : Option String
  minRank : Option String
  tag985 : String
  tag211 : String
  dfc : String
deriving DecidableEq

/-- `cleaner.py`, `UNIVERSITY_TAGS`: the static tier-tag table (every entry
carries all three flags true). -/
def universityTags : List String :=
  ["北京大学", "清华大学", "复旦大学", "上海交通大学", "浙江大学",
   "南京大学", "北京理工大学", "北京航空航天大学", "华中科技大学", "南开大学"]

/-- `cleaner.py`, `DataCleaner.add_university_tags`: look up the school
name in the static table and attach 0/1 flags. -/
def add_university_tags (r : RawRecord) : RawRecord :=
  let found :=
    match r.school with
    | .str s => universityTags.contains s
    | _ => false
  { r with
    tag985 := if found then "1" else "0"
    tag211 := if found then "1" else "0"
    dfc := if found then "1" else "0" }

/-- `cleaner.py`, `DataCleaner.validate_data`: the three required fields
must be truthy, and a string-typed year must be exactly four digit
characters. -/
def validate_data (r : RawRecord) : Bool :=
  if !truthy r.year then false
  else if !truthy r.school then false
  else if !truthy r.province then false
  else
    match r.year with
    | .str y => if !isPyDigitStr y || !(y.length = 4) then false else true
    | _ => true

/-- `cleaner.py`, `DataCleaner.clean_data`: drop records failing
validation, clean the score fields of the survivors, attach tags. -/
def clean_data : List RawRecord → List RawRecord
  | [] => []
  | r :: rs =>
    if validate_data r then
      add_university_tags
        { r with
          minScore := r.minScore.map clean_score
          minRank := r.minRank.map clean_ranking } :: clean_data rs
    else clean_data rs

end DataCleaner

/-! ## The shared free-text regex machinery of the Tsinghua and HUST crawlers

Both `tsinghua_crawler.py` and `hust_crawler.py` build the same three
patterns over the same ordered 31-entry province list:

* format 1 (`province_pattern`):
  `(P)(?:省|市|自治区|特别行政区)?[：:]([^；；]+?)(?=(P)[：:]|$)` where `P` is
  the alternation of the provinces and the negated class holds the
  full-width semicolon (twice);
* the per-province item pattern: `([^；；\d]+?)(\d+)\s*分`;
* format 2 (`province_score_pattern`):
  `(P)(?:省|市|自治区|特别行政区)?[：:]\s*(\d+)\s*分`.

The province and suffix alternations are prefix-free and never contain a
colon, the lazy groups exclude the characters that bound them, and the
greedy `\d+`/`\s*` runs are followed by letters outside their classes, so
each pattern's backtracking collapses to the deterministic scans below.
-/

namespace Crawler

open PyStr

/-- The ordered province alternation shared by both free-text crawlers
(longest names first, exactly as in the sources). -/
def provinces : List String :=
  ["内蒙古", "黑龙江", "新疆", "西藏", "宁夏", "青海", "甘肃", "陕西",
   "云南", "贵州", "四川", "重庆", "海南", "广西", "广东", "湖南",
   "湖北", "河南", "山东", "江西", "福建", "安徽", "浙江", "江苏",
   "上海", "吉林", "辽宁", "河北", "山西", "天津", "北京"]

/-- The optional administrative-suffix alternation
`(?:省|市|自治区|特别行政区)?`. -/
def adminSuffixes : List String :=
  ["省", "市", "自治区", "特别行政区"]

/-- The colon class `[：:]`. -/
def isColon (c : Char) : Bool :=
  c = '：' || c = ':'

/-- Match one alternative of a prefix-free alternation at the head of the
input (first alternative in listed order, as the regex engine tries them). -/
def matchAlt (alts : List String) (cs : List Char) : Option (String × List Char) :=
  alts.findSome? fun a =>
    if a.data.isPrefixOf cs then some (a, cs.drop a.data.length) else none

/-- Match `[：:]` at the head of the input. -/
def matchColon : List Char → Option (List Char)
  | c :: rest => if isColon c then some rest else none
  | [] => none

/-- Match `(?:省|市|自治区|特别行政区)?[：:]`: the optional group is taken
greedily and given back if the colon does not follow (no suffix starts
with a colon, so this is the full backtracking behaviour). -/
def matchSuffixColon (cs : List Char) : Option (List Char) :=
  match matchAlt adminSuffixes cs with
  | some (_, rest) =>
    match matchColon rest with
    | some r => some r
    | none => matchColon cs
  | none => matchColon cs

/-- Match the province alternation at the head of the input. -/
def matchProvince (cs : List Char) : Option (String × List Char) :=
  matchAlt provinces cs

/-- The lookahead `(?=(P)[：:]|$)` of format 1. -/
def lookaheadProvColon (cs : List Char) : Bool :=
  cs.isEmpty ||
    (match matchProvince cs with
     | some (_, r) => (matchColon r).isSome
     | none => false)

/-- The lazy group `([^；；]+?)` of format 1 followed by its lookahead:
the shortest non-empty run of non-`；` characters after which the
lookahead holds. Returns the group and the rest of the input. -/
def lazyGroup2Aux (acc : List Char) : List Char → Option (List Char × List Char)
  | [] => none
  | c :: rest =>
    if c = '；' then none
    else if lookaheadProvColon rest then some (acc ++ [c], rest)
    else lazyGroup2Aux (acc ++ [c]) rest

/-- A format-1 match anchored at the head of the input:
province, data part, rest after the match. -/
def f1MatchAt (cs : List Char) : Option (String × List Char × List Char) :=
  match matchProvince cs with
  | none => none
  | some (prov, r1) =>
    match matchSuffixColon r1 with
    | none => none
    | some r2 =>
      match lazyGroup2Aux [] r2 with
      | none => none
      | some (dat, rest) => some (prov, dat, rest)

/-- `re.finditer` scan for format 1: try a match at every position, resume
after each match (fuelled; every step consumes at least one character, so
`length` fuel is exact). -/
def f1Scan : Nat → List Char → List (String × List Char)
  | 0, _ => []
  | _ + 1, [] => []
  | fuel + 1, c :: rest =>
    match f1MatchAt (c :: rest) with
    | some (p, d, after) => (p, d) :: f1Scan fuel after
    | none => f1Scan fuel rest

/-- All format-1 matches of a text, in order. -/
def f1Matches (cs : List Char) : List (String × List Char) :=
  f1Scan cs.length cs

/-- The item-pattern character class `[^；；\d]`. -/
def itemAllowed (c : Char) : Bool :=
  !(c = '；') && !(pyIsDigit c)

/-- An item-pattern (`([^；；\d]+?)(\d+)\s*分`) match anchored at the head:
the lazy class run must stop exactly at a digit, then greedy digits,
greedy whitespace and the literal `分`. -/
def itemMatchAt (cs : List Char) : Option (List Char × List Char × List Char) :=
  let g1 := cs.takeWhile itemAllowed
  if g1.isEmpty then none
  else
    let r1 := cs.drop g1.length
    let ds := r1.takeWhile pyIsDigit
    if ds.isEmpty then none
    else
      let r2 := r1.drop ds.length
      match r2.dropWhile pyIsSpace with
      | '分' :: r => some (g1, ds, r)
      | _ => none

/-- `re.findall` scan for the item pattern. -/
def itemScan : Nat → List Char → List (List Char × List Char)
  | 0, _ => []
  | _ + 1, [] => []
  | fuel + 1, c :: rest =>
    match itemMatchAt (c :: rest) with
    | some (g1, ds, after) => (g1, ds) :: itemScan fuel after
    | none => itemScan fuel rest

/-- All item-pattern matches of a data part, in order. -/
def itemFindall (cs : List Char) : List (List Char × List Char) :=
  itemScan cs.length cs

/-- A format-2 match (`(P)(?:…)?[：:]\s*(\d+)\s*分`) anchored at the head. -/
def f2MatchAt (cs : List Char) : Option (String × List Char × List Char) :=
  match matchProvince cs with
  | none => none
  | some (prov, r1) =>
    match matchSuffixColon r1 with
    | none => none
    | some r2 =>
      let r3 := r2.dropWhile pyIsSpace
      let ds := r3.takeWhile pyIsDigit
      if ds.isEmpty then none
      else
        let r4 := r3.drop ds.length
        match r4.dropWhile pyIsSpace with
        | '分' :: r => some (prov, ds, r)
        | _ => none

/-- `re.findall` scan for format 2. -/
def f2Scan : Nat → List Char → List (String × List Char)
  | 0, _ => []
  | _ + 1, [] => []
  | fuel + 1, c :: rest =>
    match f2MatchAt (c :: rest) with
    | some (p, ds, after) => (p, ds) :: f2Scan fuel after
    | none => f2Scan fuel rest

/-- All format-2 matches of a text, in order. -/
def f2Findall (cs : List Char) : List (String × List Char) :=
  f2Scan cs.length cs

/-- `re.sub(r'(\d+)\.\d+', r'\1', text)`: replace every decimal number by
its integer part (fuelled scan). -/
def stripDecimals : Nat → List Char → List Char
  | 0, cs => cs
  | _ + 1, [] => []
  | fuel + 1, c :: rest =>
    if pyIsDigit c then
      let run := (c :: rest).takeWhile pyIsDigit
      let r1 := (c :: rest).drop run.length
      match r1 with
      | '.' :: r2 =>
        let ds2 := r2.takeWhile pyIsDigit
        if ds2.isEmpty then run ++ stripDecimals fuel r1
        else run ++ stripDecimals fuel (r2.drop ds2.length)
      | _ => run ++ stripDecimals fuel r1
    else c :: stripDecimals fuel rest

/-- Whether the paragraph text contains a full-width or ASCII semicolon
(the guard `'；' in text or ';' in text` before format 1). -/
def hasSemi (cs : List Char) : Bool :=
  cs.contains '；' || cs.contains ';'

/-- The canonical admission record produced by every crawler (the
13 dictionary fields, in source order). -/
structure AdmissionInfo where
  year : String
  school : String
  tag985 : String
  tag211 : String
  doubleFirstClass : String
  category : String
  batch : String
  major : String
  minScore : String
  minRank : String
  admissionCode : String
  admissionType : String
  sourceProvince : String
deriving DecidableEq

/-- The suffix-stripping chain
`p.replace('省','').replace('市','').replace('自治区','').replace('特别行政区','')`
shared by the crawlers' province normalization. -/
def replaceAdminSuffixes (p : String) : String :=
  pyReplaceStr (pyReplaceStr (pyReplaceStr (pyReplaceStr p "省" "") "市" "")
    "自治区" "") "特别行政区" ""

/-- A paragraph as consumed by `_parse_paragraph_format`: the text of its
`<strong>` child, if any, and its own extracted text. -/
structure Para where
  strongText : Option String
  text : String

end Crawler

namespace Crawler

/-- The bracket cleanup
`batch_text.replace('【','').replace('】','').replace('[','').replace(']','').strip()`
applied to batch titles by both free-text crawlers. -/
def cleanBatchText (bt : String) : String :=
  PyStr.pyStripStr (PyStr.pyReplaceStr (PyStr.pyReplaceStr
    (PyStr.pyReplaceStr (PyStr.pyReplaceStr bt "【" "") "】" "") "[" "") "]" "")

end Crawler

namespace TsinghuaCrawler

open PyStr Crawler

/-- `tsinghua_crawler.py` lines 319-321: province normalization in
`_create_admission_info` (administrative suffixes stripped, then
whitespace-stripped). -/
def normalizeProvince (p : String) : String :=
  pyStripStr (replaceAdminSuffixes p)

/-- `tsinghua_crawler.py` lines 326-371: classification of the
category-or-major text into (`科类`, `专业`, the admission type as set so
far). -/
def catMajorType (com : String) : String × String × String :=
  if containsStr com "理科" || containsStr com "理工" then
    if containsStr com "定向" then ("理工", "定向生", "定向生")
    else ("理工", "NA", "统招")
  else if containsStr com "文科" || containsStr com "文史" then ("文史", "NA", "统招")
  else if containsStr com "物理" || containsStr com "物化" then
    ("综合改革",
     if containsStr com "物化" then "物化组"
     else if containsStr com "物理" then "物理组"
     else "NA", "统招")
  else if containsStr com "历史" then ("综合改革", "历史组", "统招")
  else if containsStr com "不限" then ("综合改革", "不限组", "统招")
  else if containsStr com "通用" then ("综合改革", "通用组", "统招")
  else if containsStr com "医学" || containsStr com "临床医学" then ("综合改革", "医学类", "统招")
  else if containsStr com "马克思主义理论" then ("综合改革", "马克思主义理论", "统招")
  else if containsStr com "艺术史论" then ("艺术类", "艺术史论", "统招")
  else if !(com = "") then
    if containsStr com "定向" then ("理工", com, "定向生")
    else ("NA", com, "统招")
  else ("NA", "NA", "统招")

/-- `tsinghua_crawler.py`, `TsinghuaCrawler._create_admission_info`. -/
def createAdmissionInfo (year : Nat) (provinceName com score currentBatch : String) :
    Option AdmissionInfo :=
  let province := normalizeProvince provinceName
  if province = "" || score = "" then none
  else
    let com := pyStripStr com
    let cmt := catMajorType com
    let admType :=
      if containsStr com "定向" || cmt.2.2 = "定向生" then "定向生"
      else if containsStr currentBatch "国家专项" then "国家专项计划"
      else cmt.2.2
    some { year := toString year, school := "清华大学", tag985 := "1", tag211 := "1",
           doubleFirstClass := "1", category := cmt.1, batch := currentBatch,
           major := cmt.2.1, minScore := score, minRank := "NA",
           admissionCode := "10003", admissionType := admType,
           sourceProvince := province }

/-- `tsinghua_crawler.py` lines 209-235: batch-title classification,
returning the new (`current_batch`, `current_major_hint`) pair. -/
def classifyBatch (btc : String) : String × String :=
  if containsStr btc "提前批次" || containsStr btc "提前批" then
    ("提前批",
     if containsStr btc "理科定向" then "理科定向"
     else if containsStr btc "马克思主义理论" then "马克思主义理论"
     else if containsStr btc "艺术史论" then "艺术史论"
     else "")
  else if containsStr btc "国家专项" then ("国家专项计划", "")
  else if containsStr btc "定向批" then ("提前批", "定向生")
  else if containsStr btc "本科一批" || containsStr btc "一批次" || containsStr btc "统招批" then
    ("本科一批", "")
  else if containsStr btc "本科二批" || containsStr btc "二批次" then ("本科二批", "")
  else
    (pyStripStr (pyReplaceStr (pyReplaceStr (pyReplaceStr btc "录取分数线" "") "：" "") ":" ""),
     "")

/-- The records produced from one paragraph by format 1 (the multi-item
pattern): for every regex match, every item of the data part, with empty
or punctuation-only category text replaced by the major hint. -/
def f1Records (year : Nat) (batch hint : String) (t : List Char) : List AdmissionInfo :=
  (f1Matches t).flatMap fun pd =>
    (itemFindall pd.2).filterMap fun item =>
      let com := pyStripStr (String.mk item.1)
      let com := if com = "" || ["：", ":", "，", ",", "论"].contains com then hint else com
      createAdmissionInfo year pd.1 com (String.mk item.2) batch

/-- The records produced from one paragraph by format 2 (the single-item
pattern), using the major hint as category text. -/
def f2Records (year : Nat) (batch hint : String) (t : List Char) : List AdmissionInfo :=
  (f2Findall t).filterMap fun ps =>
    createAdmissionInfo year ps.1 hint (String.mk ps.2) batch

/-- `format1_matched` of `tsinghua_crawler.py`: the paragraph contains a
semicolon and format 1 found at least one match. -/
def f1Active (t : List Char) : Bool :=
  hasSemi t && !(f1Matches t).isEmpty

/-- The records the Tsinghua crawler actually obtains from pattern 1 on a
paragraph: pattern 1 runs only when the paragraph contains a semicolon. -/
def pattern1Yield (year : Nat) (batch hint : String) (t : List Char) : List AdmissionInfo :=
  if hasSemi t then f1Records year batch hint t else []

/-- Whether the Tsinghua crawler applies the single-item pattern to the
paragraph (`if not format1_matched`). -/
def pattern2Applied (t : List Char) : Bool :=
  !f1Active t

/-- Parsing of one non-title paragraph text (`tsinghua_crawler.py` lines
239-300): strip decimal fractions, then format 1 if it matches, else
format 2. -/
def parseText (year : Nat) (batch hint : String) (t0 : List Char) : List AdmissionInfo :=
  let t := stripDecimals t0.length t0
  if f1Active t then f1Records year batch hint t
  else f2Records year batch hint t

/-- One iteration of the paragraph loop: batch-title paragraphs update the
(`current_batch`, `current_major_hint`) state, other paragraphs produce
records. -/
def paraStep (year : Nat) (st : String × String) (p : Para) :
    (String × String) × List AdmissionInfo :=
  if p.text = "" then (st, [])
  else
    match p.strongText with
    | some bt =>
      if containsStr bt "批次" || containsStr bt "分数线" ||
          containsStr bt "统招批" || containsStr bt "定向批" then
        (classifyBatch (cleanBatchText bt), [])
      else (st, parseText year st.1 st.2 p.text.data)
    | none => (st, parseText year st.1 st.2 p.text.data)

/-- The paragraph loop. -/
def parseAux (year : Nat) (st : String × String) : List Para → List AdmissionInfo
  | [] => []
  | p :: ps =>
    let r := paraStep year st p
    r.2 ++ parseAux year r.1 ps

/-- `tsinghua_crawler.py`, `TsinghuaCrawler._parse_paragraph_format`:
initial state is batch `普通批` with no major hint. -/
def parseParagraphFormat (paras : List Para) (year : Nat) : List AdmissionInfo :=
  parseAux year ("普通批", "") paras

end TsinghuaCrawler

namespace HUSTCrawler

open PyStr Crawler

/-- `hust_crawler.py`, `HUSTCrawler._extract_category_from_major`. -/
def extractCategoryFromMajor (major : String) : String :=
  if major = "" || major = "NA" then "NA"
  else if ["设计学", "音乐表演", "播音与主持", "舞蹈表演", "艺术"].any
      (fun k => containsStr major k) then "艺术类"
  else if containsStr major "物理" || containsStr major "物化" then "综合改革"
  else if containsStr major "历史" then "综合改革"
  else if containsStr major "理科" || containsStr major "理工" then "理工"
  else if containsStr major "文科" || containsStr major "文史" then "文史"
  else "NA"

/-- `hust_crawler.py` lines 578-585: province normalization in
`_create_admission_info` (suffix stripping, then cutting at a full-width
opening parenthesis, then removal of ethnic-group qualifiers). -/
def normalizeProvince (p : String) : String :=
  let p1 := pyStripStr (replaceAdminSuffixes p)
  let p2 :=
    if p1.data.contains '（' then String.mk (p1.data.takeWhile (fun c => !(c = '（')))
    else p1
  if containsStr p2 "汉族" || containsStr p2 "少数民族" then
    pyStripStr (pyReplaceStr (pyReplaceStr p2 "（汉族）" "") "（少数民族）" "")
  else p2

/-- `hust_crawler.py`, `HUSTCrawler._create_admission_info`. -/
def createAdmissionInfo (year : Nat)
    (provinceName category score batch major rank : String) : Option AdmissionInfo :=
  let province := normalizeProvince provinceName
  if province = "" || score = "" then none
  else
    let admType :=
      if containsStr batch "国家专项" then "国家专项计划"
      else if containsStr batch "高校专项" then "高校专项计划"
      else if containsStr batch "定向" || containsStr major "定向" then "定向生"
      else if containsStr batch "艺术类" || category = "艺术类" then "艺术类"
      else "统招"
    let cat :=
      if category = "NA" then
        if containsStr batch "艺术类" || containsStr major "艺术" then "艺术类"
        else if containsStr major "物理" || containsStr major "物化" then "综合改革"
        else if containsStr major "历史" then "综合改革"
        else "NA"
      else category
    some { year := toString year, school := "华中科技大学", tag985 := "1", tag211 := "1",
           doubleFirstClass := "1", category := cat, batch := batch,
           major := if !(major = "NA") then major else "NA",
           minScore := score,
           minRank := if !(rank = "NA") then rank else "NA",
           admissionCode := "10487", admissionType := admType,
           sourceProvince := province }

/-- `hust_crawler.py` lines 412-424: batch-title classification. -/
def classifyBatch (btc : String) : String :=
  if containsStr btc "提前批次" || containsStr btc "提前批" then "提前批"
  else if containsStr btc "国家专项" then "国家专项计划"
  else if containsStr btc "本科一批" || containsStr btc "一批次" then "本科一批"
  else if containsStr btc "本科二批" || containsStr btc "二批次" then "本科二批"
  else pyStripStr (pyReplaceStr (pyReplaceStr (pyReplaceStr btc "录取分数线" "") "：" "") ":" "")

/-- The records produced from one paragraph by format 1 in the HUST
crawler: category inferred from the item text by
`_extract_category_from_major`, the item text kept as major. -/
def f1Records (year : Nat) (batch : String) (t : List Char) : List AdmissionInfo :=
  (f1Matches t).flatMap fun pd =>
    (itemFindall pd.2).filterMap fun item =>
      let com := pyStripStr (String.mk item.1)
      createAdmissionInfo year pd.1 (extractCategoryFromMajor com)
        (String.mk item.2) batch com "NA"

/-- The records produced from one paragraph by format 2 in the HUST
crawler (category and major both `NA`). -/
def f2Records (year : Nat) (batch : String) (t : List Char) : List AdmissionInfo :=
  (f2Findall t).filterMap fun ps =>
    createAdmissionInfo year ps.1 "NA" (String.mk ps.2) batch "NA" "NA"

/-- The records the HUST crawler actually obtains from pattern 1 on a
paragraph: pattern 1 runs only when the paragraph contains a semicolon. -/
def pattern1Yield (year : Nat) (batch : String) (t : List Char) : List AdmissionInfo :=
  if hasSemi t then f1Records year batch t else []

/-- Parsing of one non-title paragraph text (`hust_crawler.py` lines
427-469): strip decimal fractions, run format 1 when a semicolon is
present, and then — with no exclusivity guard — always run format 2 as
well. -/
def parseText (year : Nat) (batch : String) (t0 : List Char) : List AdmissionInfo :=
  let t := stripDecimals t0.length t0
  pattern1Yield year batch t ++ f2Records year batch t

/-- One iteration of the HUST paragraph loop. -/
def paraStep (year : Nat) (batch : String) (p : Para) : String × List AdmissionInfo :=
  if p.text = "" then (batch, [])
  else
    match p.strongText with
    | some bt =>
      if containsStr bt "批次" || containsStr bt "分数线" then
        (classifyBatch (cleanBatchText bt), [])
      else (batch, parseText year batch p.text.data)
    | none => (batch, parseText year batch p.text.data)

/-- The HUST paragraph loop. -/
def parseAux (year : Nat) (batch : String) : List Para → List AdmissionInfo
  | [] => []
  | p :: ps =>
    let r := paraStep year batch p
    r.2 ++ parseAux year r.1 ps

/-- `hust_crawler.py`, `HUSTCrawler._parse_paragraph_format`: initial
batch is `本科一批`. -/
def parseParagraphFormat (paras : List Para) (year : Nat) : List AdmissionInfo :=
  parseAux year "本科一批" paras

end HUSTCrawler

namespace ImportData

open PyStr

/-- The character table of `sanitize_text`:
`str.maketrans({"（": "(", "）": ")", "　": " "})`. -/
def translateChar (c : Char) : Char :=
  if c = '（' then '('
  else if c = '）' then ')'
  else if c = '　' then ' '
  else c

/-- `import_data.py`, `sanitize_text`: strip, reject empty, collapse
whitespace runs, translate full-width parentheses and spaces, optionally
truncate to `maxLen`. (`pd.isna` inputs are outside this embedding, which
takes genuine strings.) -/
def sanitize_text (value : String) (maxLen : Option Nat) : Option String :=
  let s := pyStrip value.data
  if s.isEmpty then none
  else
    let s := joinSpace (pyWords s)
    let s := s.map translateChar
    match maxLen with
    | some m => if s.length > m then some (String.mk (s.take m)) else some (String.mk s)
    | none => some (String.mk s)

/-- The character set of `rstrip("、，,；; ")` in
`smart_shorten_major_name`. -/
def listSepChars : List Char :=
  "、，,；; ".data

/-- `import_data.py`, `smart_shorten_major_name` (default limit 224):
sanitize; if within the limit return unchanged; otherwise truncate to the
limit, prefer cutting at the last `、`, trim trailing list punctuation,
and run the (full-width) parenthesis-balancing compensation of the
source. -/
def smart_shorten_major_name (value : String) (maxLen : Nat) : Option String :=
  match sanitize_text value none with
  | none => none
  | some s =>
    let cs := s.data
    if cs.length ≤ maxLen then some s
    else
      let truncated := cs.take maxLen
      match lastIdxOf truncated '、' with
      | some cutPos =>
        let base := pyRstripSet (truncated.take cutPos) listSepChars
        let candidate :=
          if countChar base '（' > countChar base '）' then
            let c2 := base ++ "等）".data
            let c2 := if c2.length > maxLen then c2.take maxLen else c2
            if countChar c2 '（' > countChar c2 '）' then c2 ++ "）".data else c2
          else base
        some (String.mk candidate)
      | none =>
        let cand0 := pyRstrip truncated
        let candidate :=
          if countChar cand0 '（' > countChar cand0 '）' then
            let c2 := cand0 ++ "）".data
            if c2.length > maxLen then c2.take maxLen else c2
          else cand0
        some (String.mk candidate)

/-- The numeric value of a run of ASCII digits. -/
def digitsVal (ds : List Char) : ℕ :=
  ds.foldl (fun a c => a * 10 + (c.toNat - '0'.toNat)) 0

/-- An exact decimal value `mant / 10 ^ scale`: the value of a decimal
literal as parsed by Python `float` (represented exactly; the binary
rounding of IEEE doubles never moves the values of this data across a
rounding boundary and is abstracted away). -/
structure Dec where
  mant : ℤ
  scale : ℕ
deriving DecidableEq

/-- The rational value of a decimal. -/
def Dec.toRat (d : Dec) : ℚ :=
  (d.mant : ℚ) / (10 : ℚ) ^ d.scale

/-- Python `float(s)` on plain decimal literals
(`digits`, `digits.digits`, `.digits`, `digits.`): the exact value,
`none` when the literal is malformed (which in `to_int_safe` raises
`ValueError` and yields the default). Exponents and other float syntax do
not occur in this data and are out of scope. -/
def parseUnsigned (cs : List Char) : Option Dec :=
  let ip := cs.takeWhile Char.isDigit
  let r1 := cs.drop ip.length
  match r1 with
  | [] => if ip.isEmpty then none else some ⟨(digitsVal ip : ℤ), 0⟩
  | '.' :: r2 =>
    let fp := r2.takeWhile Char.isDigit
    if !(r2.drop fp.length).isEmpty then none
    else if ip.isEmpty && fp.isEmpty then none
    else some ⟨(digitsVal ip : ℤ) * 10 ^ fp.length + (digitsVal fp : ℤ), fp.length⟩
  | _ => none

/-- Python `float(s)` with an optional sign. -/
def parsePyFloat (s : String) : Option Dec :=
  match s.data with
  | '+' :: rest => parseUnsigned rest
  | '-' :: rest => (parseUnsigned rest).map (fun d => ⟨-d.mant, d.scale⟩)
  | cs => parseUnsigned cs

/-- Python `int(x)` on a decimal value: truncation toward zero
(`Int.tdiv` is truncating division). -/
def pyTrunc (d : Dec) : ℤ :=
  d.mant.tdiv ((10 : ℤ) ^ d.scale)

/-- Python `round(x)` (no digits argument) on a decimal value: round half
to even. `f` is the floor of the value and `r` its nonnegative
remainder, compared against one half of the denominator. -/
def pyRound (d : Dec) : ℤ :=
  let p : ℤ := (10 : ℤ) ^ d.scale
  let f := d.mant / p
  let r := d.mant - f * p
  if 2 * r < p then f
  else if p < 2 * r then f + 1
  else if 2 ∣ f then f else f + 1

/-- `import_data.py`, `to_int_safe` (with default `None`):
strip, reject empty, then `int(round(float(s)))`. -/
def to_int_safe (value : String) : Option ℤ :=
  let s := pyStripStr value
  if s = "" then none
  else
    match parsePyFloat s with
    | some d => some (pyRound d)
    | none => none

/-- The dedup key of a row of `college_admission_score` data
(`import_data.py` line 226): `全国统一招生代码`, `PROVINCE`,
`ADMISSION_YEAR`, `MAJOR_NAME`, `MIN_SCORE`, `MIN_RANK`. `MIN_RANK` may be
missing (`NaN`), which `drop_duplicates` compares like a value. -/
structure ScoreRow where
  collegeCode : ℤ
  typ : String
  majorName : String
  province : String
  admissionYear : ℤ
  minScore : ℤ
  minRank : Option ℤ
deriving DecidableEq

/-- The composite dedup key of a row. -/
def dedupKey (r : ScoreRow) : ℤ × String × ℤ × String × ℤ × Option ℤ :=
  (r.collegeCode, r.province, r.admissionYear, r.majorName, r.minScore, r.minRank)

/-- `df.drop_duplicates(subset=dedup_cols)` (default `keep='first'`):
keep the first row of every key. -/
def dropDuplicatesAux (seen : List (ℤ × String × ℤ × String × ℤ × Option ℤ)) :
    List ScoreRow → List ScoreRow
  | [] => []
  | r :: rs =>
    if seen.contains (dedupKey r) then dropDuplicatesAux seen rs
    else r :: dropDuplicatesAux (dedupKey r :: seen) rs

/-- `import_data.py` line 228: the deduplication performed by
`import_admission_scores` before insertion. -/
def drop_duplicates (rs : List ScoreRow) : List ScoreRow :=
  dropDuplicatesAux [] rs

end ImportData

namespace NankaiCrawler

open PyStr Crawler

/-- An HTTP response as observed by the Nankai crawler: status code, the
two CSRF headers, and the decoded JSON body (`state` and the data
payload, abstracted to a string). -/
structure HttpResponse where
  status : Nat
  csrfToken : Option String
  xCsrfToken : Option String
  bodyState : ℤ
  bodyData : String

/-- Python truthiness of an optional header value. -/
def optFalsy (t : Option String) : Bool :=
  match t with
  | some s => s = ""
  | none => true

/-- `headers.get('Csrf-Token') or headers.get('X-Csrf-Token')` with
Python `or` semantics; `none` when the combined result is falsy. -/
def headerToken (r : HttpResponse) : Option String :=
  match r.csrfToken with
  | some s =>
    if !(s = "") then some s
    else
      match r.xCsrfToken with
      | some t => if !(t = "") then some t else none
      | none => none
  | none =>
    match r.xCsrfToken with
    | some t => if !(t = "") then some t else none
    | none => none

/-- `nankai_crawler.py`, `NankaiCrawler.get_filter_params`, over an
abstract transport `resp` (the response to the n-th POST of this call).
Returns (result, number of requests issued, final `self.csrf_token`).

On a 403 whose headers carry a fresh token, the source (lines 182-192)
updates the token and headers and then executes
`post_data['_token'] = self.csrf_token` — but no `post_data` variable
exists anywhere in the function, so this raises `NameError` before the
retry `self.session.post(...)` is reached; the generic
`except Exception` handler returns `None`. The branch below models
exactly that: one request, no retry, result `None`. -/
def getFilterParams (initialToken : Option String) (resp : Nat → HttpResponse) :
    Option String × Nat × Option String :=
  let r1 := resp 0
  let tok1 :=
    if optFalsy initialToken then
      match headerToken r1 with
      | some t => some t
      | none => initialToken
    else initialToken
  if r1.status = 403 then
    match headerToken r1 with
    | some t => (none, 1, some t)
    | none => (none, 1, tok1)
  else if 400 ≤ r1.status then (none, 1, tok1)
  else if r1.bodyState = 1 then (some r1.bodyData, 1, tok1)
  else (none, 1, tok1)

/-- `nankai_crawler.py`, `NankaiCrawler.get_admission_data`, over the same
abstract transport. The token from the response headers is stored
unconditionally (lines 252-255); on a 403 carrying a fresh token the
request is retried exactly once and the retried response is then handled
by `raise_for_status`/JSON parsing (a second failure gives `None`); a 403
without a token, or any other error status, gives `None` without a
retry. -/
def getAdmissionData (initialToken : Option String) (resp : Nat → HttpResponse) :
    Option String × Nat × Option String :=
  let r1 := resp 0
  let tok1 :=
    match headerToken r1 with
    | some t => some t
    | none => initialToken
  if r1.status = 403 then
    match headerToken r1 with
    | some t =>
      let r2 := resp 1
      if 400 ≤ r2.status then (none, 2, some t)
      else if r2.bodyState = 1 then (some r2.bodyData, 2, some t)
      else (none, 2, some t)
    | none => (none, 1, tok1)
  else if 400 ≤ r1.status then (none, 1, tok1)
  else if r1.bodyState = 1 then (some r1.bodyData, 1, tok1)
  else (none, 1, tok1)

/-- A JSON value as found in the Nankai API's `minScore` field (numbers
are decimal literals, held exactly). -/
inductive JVal where
  | num : ImportData.Dec → JVal
  | str : String → JVal
  | null : JVal
deriving DecidableEq

/-- `nankai_crawler.py`, `parse_batch_data` lines 314-323 (and identically
`parse_major_data`): the `minScore` coercion — a numeric value becomes
`str(int(x))` (truncation toward zero), a non-empty string is kept, and a
falsy value becomes `NA`. -/
def minScoreToStr (v : JVal) : String :=
  match v with
  | .num d => toString (ImportData.pyTrunc d)
  | .str s => if !(s = "") then s else "NA"
  | .null => "NA"

end NankaiCrawler

namespace PKUCrawler

open PyStr Crawler

/-- `pku_crawler.py` line 202: province normalization in
`parse_score_page` — administrative suffixes only. -/
def normalizeProvince (p : String) : String :=
  pyStripStr (replaceAdminSuffixes p)

/-- The leftmost maximal digit run of a string (`re.search(r'(\d+)', s)`). -/
def firstDigitRun : List Char → Option (List Char)
  | [] => none
  | c :: rest =>
    if pyIsDigit c then some ((c :: rest).takeWhile pyIsDigit)
    else firstDigitRun rest

/-- `pku_crawler.py` lines 206-213, the local `clean_score`: dash or empty
gives `None`, otherwise the first digit run. -/
def cleanScore (s : String) : Option String :=
  if s = "" || s = "-" || s = "—" then none
  else (firstDigitRun s.data).map String.mk

/-- The five column values extracted from a row (`province`, `category`,
`arts_score`, `science_score`, `other_score`). -/
structure Cols where
  province : String
  category : String
  artsScore : String
  scienceScore : String
  otherScore : String

/-- `pku_crawler.py` lines 173-187: header-driven assignment of cell
values to columns (`zip` truncation models `idx < len(cell_texts)`). -/
def assignCols (headers cells : List String) : Cols :=
  (headers.zip cells).foldl
    (fun acc hv =>
      if containsStr hv.1 "省份" || containsStr hv.1 "省" then { acc with province := hv.2 }
      else if containsStr hv.1 "类别" then { acc with category := hv.2 }
      else if containsStr hv.1 "文科" then { acc with artsScore := hv.2 }
      else if containsStr hv.1 "理科" then { acc with scienceScore := hv.2 }
      else if containsStr hv.1 "其它" || containsStr hv.1 "其他" then { acc with otherScore := hv.2 }
      else acc)
    ⟨"", "", "", "", ""⟩

/-- `pku_crawler.py`, `PKUCrawler._create_admission_info`. -/
def createAdmissionInfo (year : Nat)
    (province category score batch categoryType : String) : Option AdmissionInfo :=
  if province = "" || score = "" then none
  else
    let major :=
      if !(category = "") && !(["-", "—", ""].contains category) then category else "NA"
    some { year := toString year, school := "北京大学", tag985 := "1", tag211 := "1",
           doubleFirstClass := "1", category := categoryType, batch := batch,
           major := major, minScore := score, minRank := "NA",
           admissionCode := "10001", admissionType := "统招",
           sourceProvince := province }

/-- `pku_crawler.py` lines 157-250 (header path): the records produced
from one data row — province normalized by suffix stripping only, then up
to three records (humanities, science, other), the `other` record with
the category-keyword chain of lines 238-244 (every arm of which yields
`综合改革`). -/
def rowRecords (headers cells : List String) (year : Nat) : List AdmissionInfo :=
  let cols := assignCols headers cells
  let province := normalizeProvince cols.province
  let arts :=
    if !(cols.artsScore = "") then
      match cleanScore cols.artsScore with
      | some sc => (createAdmissionInfo year province cols.category sc "本科一批" "文史").toList
      | none => []
    else []
  let science :=
    if !(cols.scienceScore = "") then
      match cleanScore cols.scienceScore with
      | some sc => (createAdmissionInfo year province cols.category sc "本科一批" "理工").toList
      | none => []
    else []
  let other :=
    if !(cols.otherScore = "") then
      match cleanScore cols.otherScore with
      | some sc =>
        let ct :=
          if containsStr cols.category "物理" || containsStr cols.category "物化" then "综合改革"
          else if containsStr cols.category "历史" then "综合改革"
          else if containsStr cols.category "不限" then "综合改革"
          else "综合改革"
        (createAdmissionInfo year province cols.category sc "本科一批" ct).toList
      | none => []
    else []
  arts ++ science ++ other

end PKUCrawler

/-! ## Helper lemmas -/

/-- Stripping characters from the right end of a list yields a prefix of it. -/
theorem pyRstripSet_isPrefixOf (l set : List Char) : PyStr.pyRstripSet l set <+: l := by
  unfold PyStr.pyRstripSet
  have h := List.dropWhile_suffix (l := l.reverse) (fun c => set.contains c)
  have h2 := List.reverse_prefix.mpr h
  rwa [List.reverse_reverse] at h2

/-- Stripping whitespace from the right end of a list yields a prefix of it. -/
theorem pyRstrip_isPrefixOf (l : List Char) : PyStr.pyRstrip l <+: l := by
  unfold PyStr.pyRstrip
  have h := List.dropWhile_suffix (l := l.reverse) PyStr.pyIsSpace
  have h2 := List.reverse_prefix.mpr h
  rwa [List.reverse_reverse] at h2

/-- The `sanitize_text` character table never produces a full-width opening
parenthesis. -/
theorem translateChar_ne_open (c : Char) : ImportData.translateChar c ≠ '（' := by
  unfold ImportData.translateChar
  by_cases h1 : c = '（'
  · rw [if_pos h1]
    decide
  · rw [if_neg h1]
    by_cases h2 : c = '）'
    · rw [if_pos h2]
      decide
    · rw [if_neg h2]
      by_cases h3 : c = '　'
      · rw [if_pos h3]
        decide
      · rw [if_neg h3]
        exact h1

/-- A `sanitize_text` result contains no full-width opening parenthesis:
the translation table has already rewritten every `（` to `(`. -/
theorem sanitize_no_open (v s : String) (h : ImportData.sanitize_text v none = some s) :
    '（' ∉ s.data := by
  unfold ImportData.sanitize_text at h
  by_cases he : (PyStr.pyStrip v.data).isEmpty
  · rw [if_pos he] at h
    cases h
  · rw [if_neg he] at h
    have hs : s = String.mk ((PyStr.joinSpace (PyStr.pyWords (PyStr.pyStrip v.data))).map
        ImportData.translateChar) := (Option.some.inj h).symm
    rw [hs]
    intro hmem
    rcases List.mem_map.mp hmem with ⟨a, _, ha⟩
    exact translateChar_ne_open a ha

/-- Deduplication only keeps rows of the input. -/
theorem dropDupAux_mem {r : ImportData.ScoreRow} :
    ∀ (seen : List (ℤ × String × ℤ × String × ℤ × Option ℤ)) (rs : List ImportData.ScoreRow),
      r ∈ ImportData.dropDuplicatesAux seen rs → r ∈ rs := by
  intro seen rs
  induction rs generalizing seen with
  | nil => simp [ImportData.dropDuplicatesAux]
  | cons a as ih =>
    intro h
    unfold ImportData.dropDuplicatesAux at h
    by_cases hk : seen.contains (ImportData.dedupKey a)
    · rw [if_pos hk] at h
      exact List.mem_cons_of_mem a (ih seen h)
    · rw [if_neg hk] at h
      rcases List.mem_cons.mp h with h1 | h2
      · exact h1 ▸ List.mem_cons_self a as
      · exact List.mem_cons_of_mem a (ih _ h2)

/-- Key counting under deduplication: a key already seen contributes no
row, and otherwise contributes exactly one row when present at all. -/
theorem dropDupAux_countP (k : ℤ × String × ℤ × String × ℤ × Option ℤ) :
    ∀ (seen : List (ℤ × String × ℤ × String × ℤ × Option ℤ)) (rs : List ImportData.ScoreRow),
      (ImportData.dropDuplicatesAux seen rs).countP
          (fun r => decide (ImportData.dedupKey r = k)) =
        if k ∈ seen then 0
        else cond (rs.any fun r => decide (ImportData.dedupKey r = k)) 1 0 := by
  intro seen rs
  induction rs generalizing seen with
  | nil => simp [ImportData.dropDuplicatesAux]
  | cons a as ih =>
    unfold ImportData.dropDuplicatesAux
    by_cases hk : seen.contains (ImportData.dedupKey a)
    · rw [if_pos hk, ih seen]
      by_cases hks : k ∈ seen
      · simp [hks]
      · have hne : ImportData.dedupKey a ≠ k := by
          intro he
          exact hks (he ▸ List.mem_of_elem_eq_true hk)
        rw [if_neg hks, if_neg hks, List.any_cons, decide_eq_false hne, Bool.false_or]
    · rw [if_neg hk, List.countP_cons, ih (ImportData.dedupKey a :: seen)]
      by_cases hak : ImportData.dedupKey a = k
      · have hks : ¬ k ∈ seen := by
          intro hin
          exact hk (List.elem_eq_true_of_mem (hak ▸ hin))
        have hkin : k ∈ ImportData.dedupKey a :: seen := hak ▸ List.mem_cons_self _ _
        rw [if_pos hkin, if_neg hks, List.any_cons, decide_eq_true hak, Bool.true_or]
        simp
      · have hiff : k ∈ ImportData.dedupKey a :: seen ↔ k ∈ seen := by
          constructor
          · intro hin
            rcases List.mem_cons.mp hin with h1 | h2
            · exact absurd h1.symm hak
            · exact h2
          · exact List.mem_cons_of_mem _
        rw [decide_eq_false hak, List.any_cons, decide_eq_false hak, Bool.false_or]
        by_cases hks : k ∈ seen
        · rw [if_pos (hiff.mpr hks), if_pos hks]
          simp
        · rw [if_neg (fun hin => hks (hiff.mp hin)), if_neg hks]
          simp

/-! ## Claim theorems -/

/-- Claim C1: for the fabricated paragraph `北京：理科 680分；文科 650分；`
and year 2024, `_parse_paragraph_format` of the Tsinghua crawler is
claimed to yield exactly two records (北京/理工/680 and 北京/文史/650). The
code yields no record at all: the format-1 lookahead requires the next
province marker or end of text immediately after the data group, but the
data group cannot include the full-width `；` delimiter that stands there,
so format 1 never matches its own documented format, and format 2 needs
digits directly after the colon. -/
theorem c1_fabricated_paragraph_yields_no_records :
    TsinghuaCrawler.parseParagraphFormat
      [{ strongText := none, text := "北京：理科 680分；文科 650分；" }] 2024 = [] := by
  decide

/-- Claim C2 (counterexample): a HUST paragraph from which the multi-item
pattern yields a record (北京, 680) and the single-item pattern is applied
nevertheless and yields a further record (上海, 675) — the HUST crawler
has no exclusivity guard between the two patterns. -/
theorem c2_hust_counterexample_both_patterns_yield :
    HUSTCrawler.pattern1Yield 2024 "本科一批" "北京：理科 680分;上海：675分".data =
      [{ year := "2024", school := "华中科技大学", tag985 := "1", tag211 := "1",
         doubleFirstClass := "1", category := "理工", batch := "本科一批", major := "理科",
         minScore := "680", minRank := "NA", admissionCode := "10487",
         admissionType := "统招", sourceProvince := "北京" }] ∧
    HUSTCrawler.f2Records 2024 "本科一批" "北京：理科 680分;上海：675分".data =
      [{ year := "2024", school := "华中科技大学", tag985 := "1", tag211 := "1",
         doubleFirstClass := "1", category := "NA", batch := "本科一批", major := "NA",
         minScore := "675", minRank := "NA", admissionCode := "10487",
         admissionType := "统招", sourceProvince := "上海" }] ∧
    HUSTCrawler.parseText 2024 "本科一批" "北京：理科 680分;上海：675分".data =
      HUSTCrawler.pattern1Yield 2024 "本科一批" "北京：理科 680分;上海：675分".data ++
      HUSTCrawler.f2Records 2024 "本科一批" "北京：理科 680分;上海：675分".data :=
  ⟨by decide, by decide, by decide⟩

/-- Claim C2 (amended): the Tsinghua crawler applies the single-item
pattern only when the multi-item pattern yielded zero records for the
paragraph; the HUST crawler applies the single-item pattern to every
paragraph unconditionally, appending its records after the multi-item
records. -/
theorem c2_pattern_exclusivity_amended :
    (∀ (year : Nat) (batch hint : String) (t : List Char),
      TsinghuaCrawler.pattern2Applied t = true →
      TsinghuaCrawler.pattern1Yield year batch hint t = []) ∧
    (∀ (year : Nat) (batch : String) (t : List Char),
      HUSTCrawler.parseText year batch t =
        HUSTCrawler.pattern1Yield year batch (Crawler.stripDecimals t.length t) ++
        HUSTCrawler.f2Records year batch (Crawler.stripDecimals t.length t)) := by
  constructor
  · intro year batch hint t h
    unfold TsinghuaCrawler.pattern2Applied TsinghuaCrawler.f1Active at h
    unfold TsinghuaCrawler.pattern1Yield
    cases hs : Crawler.hasSemi t with
    | false => simp
    | true =>
      rw [hs] at h
      simp only [Bool.not_eq_true', Bool.true_and, Bool.not_eq_false'] at h
      have hm : Crawler.f1Matches t = [] := List.isEmpty_iff.mp h
      simp [TsinghuaCrawler.f1Records, hm]
  · intro year batch t
    rfl

/-- Claim C2 (witness): on a paragraph without semicolons the Tsinghua
crawler applies the single-item pattern, and the multi-item pattern
indeed yielded nothing. -/
theorem c2_pattern_exclusivity_witness :
    TsinghuaCrawler.pattern2Applied "北京：680分".data = true ∧
    TsinghuaCrawler.pattern1Yield 2024 "普通批" "" "北京：680分".data = [] :=
  ⟨by decide, c2_pattern_exclusivity_amended.1 2024 "普通批" "" "北京：680分".data (by decide)⟩

/-- Claim C3 (counterexample): an over-long major name beginning with a
full-width `（` and cut at its `、` separator is returned as `(x` — the
cut leaves an unbalanced opening parenthesis, yet no `等）` closing
marker is appended, because `sanitize_text` already converted every
full-width parenthesis to ASCII and the balancing branch counts only
full-width ones. -/
theorem c3_counterexample_missing_closing_marker :
    ImportData.smart_shorten_major_name ("（x、" ++ String.mk (List.replicate 222 'y')) 224 =
      some "(x" ∧
    (ImportData.sanitize_text ("（x、" ++ String.mk (List.replicate 222 'y')) none).map
      String.length = some 225 ∧
    PyStr.countChar ("(x" : String).data '(' > PyStr.countChar ("(x" : String).data ')' ∧
    PyStr.containsStr "(x" "等）" = false :=
  ⟨by decide, by decide, by decide, by decide⟩

/-- Claim C3 (amended): `smart_shorten_major_name` returns the sanitized
string unchanged when it is within the 224-character limit, its result
never exceeds 224 characters, and the result is always a prefix of the
sanitized string — in particular no closing marker is ever appended,
since the parenthesis-balancing branch compares counts of full-width
parentheses that sanitization has already removed. -/
theorem c3_smart_shorten_amended :
    ∀ (v s t : String),
      ImportData.sanitize_text v none = some s →
      ImportData.smart_shorten_major_name v 224 = some t →
      (s.length ≤ 224 → t = s) ∧ t.length ≤ 224 ∧ t.data <+: s.data := by
  intro v s t hs ht
  have hnop : '（' ∉ s.data := sanitize_no_open v s hs
  unfold ImportData.smart_shorten_major_name at ht
  simp only [hs] at ht
  by_cases hlen : s.data.length ≤ 224
  · rw [if_pos hlen] at ht
    have hts : t = s := (Option.some.inj ht).symm
    subst hts
    exact ⟨fun _ => rfl, hlen, List.prefix_refl _⟩
  · rw [if_neg hlen] at ht
    have hvac : s.length ≤ 224 → t = s := fun hl => absurd hl hlen
    cases hcut : PyStr.lastIdxOf (s.data.take 224) '、' with
    | some cutPos =>
      simp only [hcut] at ht
      set base := PyStr.pyRstripSet ((s.data.take 224).take cutPos) ImportData.listSepChars
        with hbase
      have hpre : base <+: s.data :=
        (pyRstripSet_isPrefixOf _ _).trans
          ((List.take_prefix _ _).trans (List.take_prefix _ _))
      have hcount : PyStr.countChar base '（' = 0 :=
        List.count_eq_zero.mpr (fun hmem => hnop (hpre.subset hmem))
      have hcond : ¬ (PyStr.countChar base '（' > PyStr.countChar base '）') := by
        rw [hcount]
        exact Nat.not_lt_zero _
      rw [if_neg hcond] at ht
      have htb : t = String.mk base := (Option.some.inj ht).symm
      subst htb
      refine ⟨hvac, ?_, hpre⟩
      have h1 : base.length ≤ ((s.data.take 224).take cutPos).length :=
        (pyRstripSet_isPrefixOf _ _).length_le
      have h2 : ((s.data.take 224).take cutPos).length ≤ (s.data.take 224).length :=
        (List.take_prefix _ _).length_le
      have h3 : (s.data.take 224).length ≤ 224 := by
        rw [List.length_take]
        exact Nat.min_le_left _ _
      exact le_trans h1 (le_trans h2 h3)
    | none =>
      simp only [hcut] at ht
      set cand0 := PyStr.pyRstrip (s.data.take 224) with hcand
      have hpre : cand0 <+: s.data :=
        (pyRstrip_isPrefixOf _).trans (List.take_prefix _ _)
      have hcount : PyStr.countChar cand0 '（' = 0 :=
        List.count_eq_zero.mpr (fun hmem => hnop (hpre.subset hmem))
      have hcond : ¬ (PyStr.countChar cand0 '（' > PyStr.countChar cand0 '）') := by
        rw [hcount]
        exact Nat.not_lt_zero _
      rw [if_neg hcond] at ht
      have htb : t = String.mk cand0 := (Option.some.inj ht).symm
      subst htb
      refine ⟨hvac, ?_, hpre⟩
      have h1 : cand0.length ≤ (s.data.take 224).length := (pyRstrip_isPrefixOf _).length_le
      have h3 : (s.data.take 224).length ≤ 224 := by
        rw [List.length_take]
        exact Nat.min_le_left _ _
      exact le_trans h1 h3

/-- Claim C3 (witness): the amended theorem applied to the short input
`abc`. -/
theorem c3_smart_shorten_witness :
    (("abc" : String).length ≤ 224 → ("abc" : String) = "abc") ∧
    ("abc" : String).length ≤ 224 ∧ ("abc" : String).data <+: ("abc" : String).data :=
  c3_smart_shorten_amended "abc" "abc" "abc" (by decide) (by decide)

/-- Claim C4: after `drop_duplicates` on the composite key
(`全国统一招生代码`, `PROVINCE`, `ADMISSION_YEAR`, `MAJOR_NAME`,
`MIN_SCORE`, `MIN_RANK`), the result contains exactly one row per key that
occurs in the input, and only rows of the input. -/
theorem c4_dedup_exactly_one_per_key :
    ∀ (rs : List ImportData.ScoreRow) (k : ℤ × String × ℤ × String × ℤ × Option ℤ),
      ((∃ r ∈ rs, ImportData.dedupKey r = k) →
        (ImportData.drop_duplicates rs).countP
          (fun r => decide (ImportData.dedupKey r = k)) = 1) ∧
      (∀ r ∈ ImportData.drop_duplicates rs, r ∈ rs) := by
  intro rs k
  constructor
  · intro hex
    rw [ImportData.drop_duplicates, dropDupAux_countP k [] rs]
    have hany : (rs.any fun r => decide (ImportData.dedupKey r = k)) = true := by
      rcases hex with ⟨r, hr, hrk⟩
      exact List.any_eq_true.mpr ⟨r, hr, decide_eq_true hrk⟩
    rw [if_neg (List.not_mem_nil k), hany]
    rfl
  · intro r hr
    exact dropDupAux_mem [] rs hr

/-- Claim C4 (witness): a duplicated row is kept exactly once. -/
theorem c4_dedup_witness :
    (ImportData.drop_duplicates
        [⟨10003, "理工", "NA", "北京", 2024, 680, none⟩,
         ⟨10003, "理工", "NA", "北京", 2024, 680, none⟩]).countP
      (fun r => decide (ImportData.dedupKey r =
        ImportData.dedupKey ⟨10003, "理工", "NA", "北京", 2024, 680, none⟩)) = 1 :=
  (c4_dedup_exactly_one_per_key
      [⟨10003, "理工", "NA", "北京", 2024, 680, none⟩,
       ⟨10003, "理工", "NA", "北京", 2024, 680, none⟩]
      (ImportData.dedupKey ⟨10003, "理工", "NA", "北京", 2024, 680, none⟩)).1
    ⟨⟨10003, "理工", "NA", "北京", 2024, 680, none⟩, by simp, rfl⟩

/-- Claim C5: on a 403 whose headers carry a fresh CSRF token,
`get_admission_data` retries exactly once with the new token (succeeding
when the retry succeeds, and returning `None` without raising when the
retry fails again), but `get_filter_params` — where the claim asserts the
same recovery — issues no retry at all: its retry block dereferences the
undefined name `post_data`, so the `NameError` is swallowed by the
generic handler and the call returns `None` after a single request even
though the retried request would have succeeded. -/
theorem c5_filter_params_does_not_retry_on_403 :
    NankaiCrawler.getFilterParams (some "stale")
        (fun n => if n = 0 then ⟨403, some "fresh", none, 0, ""⟩
                  else ⟨200, none, none, 1, "payload"⟩) = (none, 1, some "fresh") ∧
    NankaiCrawler.getAdmissionData (some "stale")
        (fun n => if n = 0 then ⟨403, some "fresh", none, 0, ""⟩
                  else ⟨200, none, none, 1, "payload"⟩) = (some "payload", 2, some "fresh") ∧
    NankaiCrawler.getAdmissionData (some "stale")
        (fun _ => ⟨403, some "fresh", none, 0, ""⟩) = (none, 2, some "fresh") :=
  ⟨rfl, rfl, rfl⟩

/-- Claim C6 (counterexample): the Loader's `to_int_safe` turns the score
string `650.7` into `651` — it rounds (Python `round`) where truncation
(dropping the sub-point digits, as the claim states) would give `650`. -/
theorem c6_counterexample_to_int_safe_rounds :
    ImportData.to_int_safe "650.7" = some 651 ∧
    ImportData.pyTrunc ⟨6507, 1⟩ = 650 ∧ (651 : ℤ) ≠ 650 :=
  ⟨by decide, by decide, by decide⟩

/-- Claim C6 (amended): the Nankai adapter's float-to-integer-string
coercion truncates (its value is the integer part of the decimal, as the
bracketing inequalities state), but the Loader's `to_int_safe` rounds to
nearest (half to even) instead of truncating, e.g. `650.7` becomes
`651` while its truncation is `650`. -/
theorem c6_truncate_vs_round_amended :
    (∀ (m : ℤ) (k : ℕ), 0 ≤ m →
      NankaiCrawler.minScoreToStr (NankaiCrawler.JVal.num ⟨m, k⟩) =
        toString (ImportData.pyTrunc ⟨m, k⟩) ∧
      ImportData.pyTrunc ⟨m, k⟩ * 10 ^ k ≤ m ∧
      m < (ImportData.pyTrunc ⟨m, k⟩ + 1) * 10 ^ k) ∧
    ImportData.to_int_safe "650.7" = some 651 ∧
    ImportData.pyTrunc ⟨6507, 1⟩ = 650 := by
  refine ⟨?_, by decide, by decide⟩
  intro m k hm
  have hp : (0 : ℤ) < (10 : ℤ) ^ k := pow_pos (by norm_num) k
  have ht : ImportData.pyTrunc ⟨m, k⟩ = m / ((10 : ℤ) ^ k) := by
    unfold ImportData.pyTrunc
    exact Int.tdiv_eq_ediv hm (le_of_lt hp)
  have h1 := Int.ediv_add_emod' m ((10 : ℤ) ^ k)
  have h2 := Int.emod_nonneg m (ne_of_gt hp)
  have h3 := Int.emod_lt_of_pos m hp
  refine ⟨rfl, ?_, ?_⟩
  · rw [ht]
    linarith [h1, h2]
  · rw [ht]
    have hx : (m / (10 : ℤ) ^ k + 1) * (10 : ℤ) ^ k =
        m / (10 : ℤ) ^ k * (10 : ℤ) ^ k + (10 : ℤ) ^ k := by ring
    rw [hx]
    linarith [h1, h3]

/-- Claim C6 (witness): the amended theorem applied to the decimal
`650.7`. -/
theorem c6_truncate_vs_round_witness :
    NankaiCrawler.minScoreToStr (NankaiCrawler.JVal.num ⟨6507, 1⟩) =
      toString (ImportData.pyTrunc ⟨6507, 1⟩) ∧
    ImportData.pyTrunc ⟨6507, 1⟩ * 10 ^ 1 ≤ (6507 : ℤ) ∧
    (6507 : ℤ) < (ImportData.pyTrunc ⟨6507, 1⟩ + 1) * 10 ^ 1 :=
  c6_truncate_vs_round_amended.1 6507 1 (by decide)

/-- Claim C7 (counterexample): a PKU table row with province cell
`新疆（少数民族）` is emitted with the parenthetical ethnic-group
qualifier intact — the PKU adapter strips only administrative suffixes. -/
theorem c7_counterexample_pku_keeps_qualifier :
    PKUCrawler.rowRecords ["省份", "类别", "文科"] ["新疆（少数民族）", "-", "650"] 2024 =
      [{ year := "2024", school := "北京大学", tag985 := "1", tag211 := "1",
         doubleFirstClass := "1", category := "文史", batch := "本科一批", major := "NA",
         minScore := "650", minRank := "NA", admissionCode := "10001",
         admissionType := "统招", sourceProvince := "新疆（少数民族）" }] ∧
    ("新疆（少数民族）" : String) ≠ "新疆" :=
  ⟨by decide, by decide⟩

/-- Claim C7 (amended): all three cited adapters strip the administrative
suffixes (PKU's normalization is literally the Tsinghua one), but only
the HUST adapter also removes parenthetical ethnic-group qualifiers; the
PKU adapter stores `新疆（少数民族）` unchanged. -/
theorem c7_province_normalization_amended :
    (∀ p : String, PKUCrawler.normalizeProvince p = TsinghuaCrawler.normalizeProvince p) ∧
    HUSTCrawler.normalizeProvince "河北省" = "河北" ∧
    HUSTCrawler.normalizeProvince "西藏自治区" = "西藏" ∧
    HUSTCrawler.normalizeProvince "新疆（少数民族）" = "新疆" ∧
    PKUCrawler.normalizeProvince "河北省" = "河北" ∧
    TsinghuaCrawler.normalizeProvince "河北省" = "河北" ∧
    PKUCrawler.normalizeProvince "新疆（少数民族）" = "新疆（少数民族）" :=
  ⟨fun _ => rfl, by decide, by decide, by decide, by decide, by decide, by decide⟩

/-- Claim C8: `clean_score` (and `clean_ranking`, which is the same
computation) returns `''` on the empty string, the digit subsequence when
the input has a digit, and the whitespace-trimmed input when it has
none. -/
theorem c8_clean_score_spec :
    ∀ s : String,
      (s = "" → DataCleaner.clean_score s = "") ∧
      (s.data.any PyStr.pyIsDigit = true →
        DataCleaner.clean_score s = String.mk (s.data.filter PyStr.pyIsDigit)) ∧
      (¬ s = "" → s.data.any PyStr.pyIsDigit = false →
        DataCleaner.clean_score s = PyStr.pyStripStr s) ∧
      DataCleaner.clean_ranking s = DataCleaner.clean_score s := by
  intro s
  refine ⟨?_, ?_, ?_, rfl⟩
  · intro h
    rw [h]
    rfl
  · intro h
    have hne : ¬ s = "" := by
      intro he
      rw [he] at h
      simp at h
    have hfil : (s.data.filter PyStr.pyIsDigit).isEmpty = false := by
      rcases List.any_eq_true.mp h with ⟨c, hc, hcd⟩
      have hmem : c ∈ s.data.filter PyStr.pyIsDigit := List.mem_filter.mpr ⟨hc, hcd⟩
      rcases hl : s.data.filter PyStr.pyIsDigit with _ | _
      · rw [hl] at hmem
        cases hmem
      · rfl
    simp only [DataCleaner.clean_score, if_neg hne, hfil]
    simp
  · intro hne h
    have hfil : (s.data.filter PyStr.pyIsDigit).isEmpty = true := by
      have hemp : s.data.filter PyStr.pyIsDigit = [] := by
        rw [List.filter_eq_nil_iff]
        intro c hc hcd
        have hany : s.data.any PyStr.pyIsDigit = true := List.any_eq_true.mpr ⟨c, hc, hcd⟩
        rw [h] at hany
        cases hany
      rw [hemp]
      rfl
    simp only [DataCleaner.clean_score, if_neg hne, hfil]
    simp

/-- Claim C8 (witness): `clean_score` on `650分`, the empty string and
`NA`. -/
theorem c8_clean_score_witness :
    DataCleaner.clean_score "650分" = "650" ∧
    DataCleaner.clean_score "" = "" ∧
    DataCleaner.clean_score "NA" = "NA" := by
  refine ⟨?_, ?_, ?_⟩
  · exact ((c8_clean_score_spec "650分").2.1 (by decide)).trans (by decide)
  · exact (c8_clean_score_spec "").1 rfl
  · exact ((c8_clean_score_spec "NA").2.2.1 (by decide) (by decide)).trans (by decide)

/-- Claim C9: `validate_data` accepts a record exactly when its `年份`,
`学校` and `生源地` fields are truthy and a string-typed year is exactly
four digit characters; `24` fails while `2024` passes, and invalid
records are dropped by `clean_data` rather than raising. -/
theorem c9_validate_spec :
    (∀ r : DataCleaner.RawRecord,
      DataCleaner.validate_data r = true ↔
        (DataCleaner.truthy r.year = true ∧ DataCleaner.truthy r.school = true ∧
         DataCleaner.truthy r.province = true ∧
         ∀ y, r.year = DataCleaner.PyVal.str y →
           (y.length = 4 ∧ y.data.all PyStr.pyIsDigit = true))) ∧
    DataCleaner.validate_data
      ⟨.str "24", .str "北京大学", .str "北京", none, none, "", "", ""⟩ = false ∧
    DataCleaner.validate_data
      ⟨.str "2024", .str "北京大学", .str "北京", none, none, "", "", ""⟩ = true ∧
    (∀ (r : DataCleaner.RawRecord) (rs : List DataCleaner.RawRecord),
      DataCleaner.validate_data r = false →
      DataCleaner.clean_data (r :: rs) = DataCleaner.clean_data rs) := by
  refine ⟨?_, by decide, by decide, ?_⟩
  · intro r
    rcases r with ⟨ry, rsch, rprov, ms, mr, t9, t2, td⟩
    cases ry with
    | str y =>
      by_cases hy : y = ""
      · subst hy
        simp [DataCleaner.validate_data, DataCleaner.truthy]
      · have h1 : DataCleaner.truthy (DataCleaner.PyVal.str y) = true := by
          simp [DataCleaner.truthy, hy]
        by_cases hsch : DataCleaner.truthy rsch
        · by_cases hprov : DataCleaner.truthy rprov
          · simp only [DataCleaner.validate_data, h1, hsch, hprov, Bool.not_true,
              Bool.false_eq_true, if_false]
            simp [DataCleaner.isPyDigitStr, hy]
            tauto
          · simp [DataCleaner.validate_data, h1, hsch, hprov]
        · simp [DataCleaner.validate_data, h1, hsch]
    | int n =>
      by_cases hn : n = 0
      · subst hn
        simp [DataCleaner.validate_data, DataCleaner.truthy]
      · have h1 : DataCleaner.truthy (DataCleaner.PyVal.int n) = true := by
          simp [DataCleaner.truthy, hn]
        by_cases hsch : DataCleaner.truthy rsch
        · by_cases hprov : DataCleaner.truthy rprov
          · simp [DataCleaner.validate_data, h1, hsch, hprov]
          · simp [DataCleaner.validate_data, h1, hsch, hprov]
        · simp [DataCleaner.validate_data, h1, hsch]
    | null =>
      simp [DataCleaner.validate_data, DataCleaner.truthy]
  · intro r rs h
    have hne : DataCleaner.validate_data r ≠ true := by
      rw [h]
      exact Bool.false_ne_true
    simp only [DataCleaner.clean_data]
    rw [if_neg hne]

/-- Claim C9 (witness): the validation characterization applied to a
four-digit year record, and the drop behaviour applied to a two-digit
year record. -/
theorem c9_validate_witness :
    DataCleaner.validate_data
      ⟨.str "2024", .str "清华大学", .str "北京", none, none, "", "", ""⟩ = true ∧
    DataCleaner.clean_data
        [⟨.str "24", .str "北京大学", .str "北京", none, none, "", "", ""⟩] =
      DataCleaner.clean_data [] := by
  constructor
  · exact (c9_validate_spec.1 _).mpr
      ⟨by decide, by decide, by decide,
       fun y hy => by cases hy; exact ⟨by decide, by decide⟩⟩
  · exact c9_validate_spec.2.2.2 _ [] (by decide)

/-- Claim C10: when the year field is truthy but not a string instance,
`validate_data` performs no year-format check and accepts the record
whenever the school and province fields are also truthy. -/
theorem c10_nonstring_year_skips_check :
    ∀ r : DataCleaner.RawRecord,
      DataCleaner.isStr r.year = false →
      DataCleaner.truthy r.year = true →
      DataCleaner.truthy r.school = true →
      DataCleaner.truthy r.province = true →
      DataCleaner.validate_data r = true := by
  intro r h0 h1 h2 h3
  cases hr : r.year with
  | str y =>
    rw [hr] at h0
    simp [DataCleaner.isStr] at h0
  | int n =>
    rw [hr] at h1
    unfold DataCleaner.validate_data
    rw [hr]
    simp [h1, h2, h3]
  | null =>
    rw [hr] at h1
    simp [DataCleaner.truthy] at h1

/-- Claim C10 (witness): a record with the integer year 24 passes
validation. -/
theorem c10_nonstring_year_witness :
    DataCleaner.validate_data
      ⟨.int 24, .str "清华大学", .str "北京", none, none, "", "", ""⟩ = true :=
  c10_nonstring_year_skips_check
    ⟨.int 24, .str "清华大学", .str "北京", none, none, "", "", ""⟩
    (by decide) (by decide) (by decide) (by decide)
